import Mathlib

/-!
Verification of the deterministic slice of the AI workforce payroll
front-end: the eligibility validation, history management and error
surfacing of handleSubmit in src/App.tsx, and the deterministic
calculation contract stated by the SYSTEM_PROMPT in the service module.
Numbers are modelled as rationals, times as minute counts parsed from
HH:MM strings, and the external model call as an oracle value consumed
by handleSubmit.
-/

namespace Phoenix

/-- Sector enum from src/types.ts. -/
inductive Sector where
  | Mining
  | Hardware
  | Software
deriving DecidableEq, Repr, Fintype

/-- WorkingStatus enum from src/types.ts. -/
inductive WorkingStatus where
  | working
  | idle
  | absent
deriving DecidableEq, Repr, Fintype

/-- ActivityLevel enum from src/types.ts. -/
inductive ActivityLevel where
  | high
  | medium
  | low
  | not_present
deriving DecidableEq, Repr, Fintype

/-- RiskLevel enum from src/types.ts. -/
inductive RiskLevel where
  | none
  | low
  | medium
  | high
  | critical
deriving DecidableEq, Repr

/-- WorkStatus enum from src/types.ts. -/
inductive WorkStatus where
  | full_day
  | half_day
  | denied
deriving DecidableEq, Repr

/-- PayrollOutput interface from src/types.ts: one verification record. -/
structure PayrollOutput where
  employee_id : String
  sector : String
  authorized : Bool
  human_detected : Bool
  working_status : WorkingStatus
  activity_level : ActivityLevel
  helmet : Bool
  vest : Bool
  efficiency_percentage : ℚ
  risk_level : RiskLevel
  hours_worked : ℚ
  hourly_rate : ℚ
  base_salary : ℚ
  final_salary : ℚ
  work_status : WorkStatus
  confidence : ℚ
  explanation : String
  timestamp : String
deriving DecidableEq, Repr

/-- PayrollInput interface from src/types.ts. -/
structure PayrollInput where
  employee_id : String
  sector : Sector
  check_in_time : String
  current_time : String
  worker_image : Option String
deriving DecidableEq, Repr

/-- The pieces of App component state that handleSubmit touches. -/
structure AppState where
  history : List PayrollOutput
  currentResult : Option PayrollOutput
  error : Option String
deriving DecidableEq, Repr

/-- The duplicate-access predicate of src/App.tsx line 100:
h.employee_id === input.employee_id && h.authorized. -/
def isAuthDup (id : String) (h : PayrollOutput) : Bool :=
  h.employee_id == id && h.authorized

/-- The regex match ^EM(\d+)$ of src/App.tsx line 108: returns the captured
digit characters when the id is EM followed by one or more digits. -/
def emDigits (id : String) : Option (List Char) :=
  match id.toList with
  | 'E' :: 'M' :: rest =>
      if rest ≠ [] ∧ rest.all Char.isDigit then Option.some rest else Option.none
  | _ => Option.none

/-- parseInt on a nonempty decimal digit string (src/App.tsx line 115). -/
def digitsVal (cs : List Char) : Nat :=
  cs.foldl (fun a c => 10 * a + (c.toNat - 48)) 0

/-- The duplicate-access error message of src/App.tsx line 102. -/
def duplicateMsg (id : String) : String :=
  "ACCESS DENIED: Employee " ++ id ++
    " has already completed verification. Multiple shift entries are prohibited."

/-- The invalid-id-format error message of src/App.tsx line 110. -/
def invalidIdMsg : String :=
  "INVALID ID: ID must follow the format EM### (e.g., EM001)."

/-- The out-of-range error message of src/App.tsx line 117. -/
def outOfRangeMsg (id : String) : String :=
  "UNAUTHORIZED: ID " ++ id ++ " is outside the valid workforce range (EM001-EM100)."

/-- The unauthorized-by-model error message of src/App.tsx line 131. -/
def supervisorAlertMsg (id : String) : String :=
  "SUPERVISOR ALERT: Identity " ++ id ++ " was rejected by Phoenix AI protocols."

/-- Tag recording which of the six return paths of handleSubmit was taken. -/
inductive Outcome where
  | duplicate
  | invalidId
  | outOfRange
  | accepted
  | unauthorizedByModel
  | serviceFailure
deriving DecidableEq, Repr

/-- The external model call (calculatePayroll) happens exactly on the three
paths that are reached after all client-side validation passes. -/
def calledExternal : Outcome → Bool
  | .accepted => true
  | .unauthorizedByModel => true
  | .serviceFailure => true
  | _ => false

/-- handleSubmit from src/App.tsx lines 94-140.  The external call
calculatePayroll is modelled by the oracle argument: Except.ok r is a parsed
model response, Except.error msg is a thrown network or parse error (whose
message handleSubmit displays verbatim).  Returns the new state together
with the tag of the return path taken. -/
def handleSubmit (s : AppState) (input : PayrollInput)
    (oracle : Except String PayrollOutput) : AppState × Outcome :=
  if s.history.any (isAuthDup input.employee_id) then
    ({ s with error := Option.some (duplicateMsg input.employee_id) }, .duplicate)
  else
    match emDigits input.employee_id with
    | Option.none => ({ s with error := Option.some invalidIdMsg }, .invalidId)
    | Option.some ds =>
      if digitsVal ds < 1 ∨ 100 < digitsVal ds then
        ({ s with error := Option.some (outOfRangeMsg input.employee_id) }, .outOfRange)
      else
        match oracle with
        | Except.ok result =>
          if result.authorized then
            ({ history := (result :: s.history).take 50,
               currentResult := Option.some result,
               error := Option.none }, .accepted)
          else
            ({ history := (result :: s.history).take 50,
               currentResult := Option.some result,
               error := Option.some (supervisorAlertMsg input.employee_id) },
             .unauthorizedByModel)
        | Except.error msg =>
          ({ s with error := Option.some msg }, .serviceFailure)

/-- Number of authorized records for a given identifier string in a history. -/
def authCount (hist : List PayrollOutput) (id : String) : Nat :=
  (hist.filter (isAuthDup id)).length

/-- States reachable by the App event loop: the initial empty state,
a submission step (whose model response, per the response contract of the
service module, echoes the submitted employee id), and the purge-records
action that clears the history. -/
inductive Reachable : AppState → Prop where
  | init : Reachable ⟨[], Option.none, Option.none⟩
  | submit (s : AppState) (input : PayrollInput)
      (oracle : Except String PayrollOutput) (hs : Reachable s)
      (hecho : ∀ r, oracle = Except.ok r → r.employee_id = input.employee_id) :
      Reachable (handleSubmit s input oracle).1
  | purge (s : AppState) (hs : Reachable s) :
      Reachable { s with history := [] }

/-- Modelled from the spec: the deterministic payroll arithmetic is not
executed by code in this repository but delegated to the external model
through the SYSTEM_PROMPT contract (STEP 9) in the service module.
Base hourly rates: Mining = 50, Hardware = 45, Software = 60. -/
def baseRate : Sector → ℚ
  | .Mining => 50
  | .Hardware => 45
  | .Software => 60

/-- Modelled from the spec: SYSTEM_PROMPT STEP 9, group = (N - 1) // 5
where N is the numeric part of the employee id. -/
def rateGroup (n : Nat) : Nat := (n - 1) / 5

/-- Modelled from the spec: SYSTEM_PROMPT STEP 9, hourly_rate is the sector
base rate when the group is even and base rate + 5 when it is odd. -/
def hourlyRate (sec : Sector) (n : Nat) : ℚ :=
  if rateGroup n % 2 = 0 then baseRate sec else baseRate sec + 5

/-- Split a character list at the first colon. -/
def splitColon (cs : List Char) (acc : List Char) : Option (List Char × List Char) :=
  match cs with
  | [] => Option.none
  | c :: rest =>
    if c = ':' then Option.some (acc.reverse, rest)
    else splitColon rest (c :: acc)

/-- Parse a nonempty all-digit character list as a natural number. -/
def parseNatDigits (cs : List Char) : Option Nat :=
  if cs ≠ [] ∧ cs.all Char.isDigit then Option.some (digitsVal cs) else Option.none

/-- Parse an HH:MM time string to a count of minutes since midnight. -/
def parseTimeMinutes (t : String) : Option Nat :=
  match splitColon t.toList [] with
  | Option.some (hs, ms) =>
    match parseNatDigits hs, parseNatDigits ms with
    | Option.some hh, Option.some mm => Option.some (hh * 60 + mm)
    | _, _ => Option.none
  | Option.none => Option.none

/-- Modelled from the spec: SYSTEM_PROMPT STEP 8, working hours is the
decimal difference between current_time and check_in_time. -/
def hoursWorked (checkIn current : String) : Option ℚ :=
  match parseTimeMinutes checkIn, parseTimeMinutes current with
  | Option.some a, Option.some b => Option.some (((b : ℚ) - (a : ℚ)) / 60)
  | _, _ => Option.none

/-- Modelled from the spec: SYSTEM_PROMPT STEP 9, base_salary =
hours_worked multiplied by hourly_rate. -/
def baseSalary (hours rate : ℚ) : ℚ := hours * rate

/-- Modelled from the spec: SYSTEM_PROMPT STEP 10, productivity adjustment:
efficiency at least 90 gives a 10 percent bonus, 50 to 89 leaves the base
salary unchanged, below 50 gives a 10 percent penalty. -/
def finalSalary (base eff : ℚ) : ℚ :=
  if 90 ≤ eff then base * (11 / 10)
  else if 50 ≤ eff then base
  else base * (9 / 10)

/-- Modelled from the spec: SYSTEM_PROMPT STEP 11 and STEP 1, work status is
full_day when hours worked is at least 6, half_day otherwise, and denied
overrides both when eligibility or authorization failed. -/
def workStatusOf (hours : ℚ) (denied : Bool) : WorkStatus :=
  if denied then .denied
  else if 6 ≤ hours then .full_day
  else .half_day

/-- Modelled from the spec: SYSTEM_PROMPT STEP 4, working status mapping
from activity level. -/
def workingStatusOf : ActivityLevel → WorkingStatus
  | .high => .working
  | .medium => .working
  | .low => .idle
  | .not_present => .absent

/-- Modelled from the spec: SYSTEM_PROMPT STEP 5, base efficiency by
activity level. -/
def baseEfficiency : ActivityLevel → Int
  | .high => 95
  | .medium => 70
  | .low => 30
  | .not_present => 0

/-- Modelled from the spec: SYSTEM_PROMPT STEP 6, required PPE by sector:
Mining requires a helmet, Hardware requires helmet and vest, Software
requires none; true when a required item is missing. -/
def requiredPPEMissing (sec : Sector) (helmet vest : Bool) : Bool :=
  match sec with
  | .Mining => !helmet
  | .Hardware => !helmet || !vest
  | .Software => false

/-- Clamp an integer score into the range 0 to 100. -/
def clamp01 (x : Int) : Int := max 0 (min 100 x)

/-- Modelled from the spec: SYSTEM_PROMPT STEP 6, efficiency is the base
activity score minus 30 when required PPE is missing, minus 20 when the
posture is judged unsafe, clamped to the range 0 to 100. -/
def efficiencyPct (a : ActivityLevel) (sec : Sector)
    (helmet vest unsafePosture : Bool) : Int :=
  clamp01 (baseEfficiency a
    - (if requiredPPEMissing sec helmet vest then 30 else 0)
    - (if unsafePosture then 20 else 0))

/-- Number of simultaneous safety violations: missing required PPE and
unsafe posture each count as one. -/
def violationCount (missingPPE unsafePosture : Bool) : Nat :=
  (if missingPPE then 1 else 0) + (if unsafePosture then 1 else 0)

/-- Modelled from the spec: SYSTEM_PROMPT STEP 7 risk mapping, with the
documented disambiguation that absence dominates and two or more
simultaneous violations count as multiple: absent gives none, two or more
violations give critical, missing PPE gives high, idle gives medium, and
safe and working gives low. -/
def riskLevelOf (w : WorkingStatus) (missingPPE unsafePosture : Bool) : RiskLevel :=
  if w = .absent then .none
  else if 2 ≤ violationCount missingPPE unsafePosture then .critical
  else if missingPPE then .high
  else if w = .idle then .medium
  else .low

/-- A concrete verification record used as a model response in witnesses:
the record the SYSTEM_PROMPT contract produces for EM001, Mining, check-in
09:00, verification 17:30, safe high activity. -/
def sampleOutput : PayrollOutput where
  employee_id := "EM001"
  sector := "Mining"
  authorized := true
  human_detected := true
  working_status := .working
  activity_level := .high
  helmet := true
  vest := true
  efficiency_percentage := 95
  risk_level := .low
  hours_worked := 17 / 2
  hourly_rate := 50
  base_salary := 425
  final_salary := 935 / 2
  work_status := .full_day
  confidence := 9 / 10
  explanation := "ok"
  timestamp := "t0"

/-- The initial form input of src/App.tsx (INITIAL_INPUT). -/
def inputEM001 : PayrollInput where
  employee_id := "EM001"
  sector := .Mining
  check_in_time := "09:00"
  current_time := "17:30"
  worker_image := Option.none

/-- The empty application state at startup. -/
def initState : AppState := ⟨[], Option.none, Option.none⟩

/-- Truncating a history cannot increase the number of authorized records
for any identifier. -/
lemma authCount_take_le (hist : List PayrollOutput) (n : Nat) (id : String) :
    authCount (hist.take n) id ≤ authCount hist id := by
  unfold authCount
  exact ((List.take_sublist n hist).filter _).length_le

/-- Prepending a record that is not an authorized record for the identifier
leaves the count unchanged. -/
lemma authCount_cons_false (r : PayrollOutput) (hist : List PayrollOutput)
    (id : String) (h : isAuthDup id r = false) :
    authCount (r :: hist) id = authCount hist id := by
  unfold authCount
  rw [List.filter_cons, h]
  simp

/-- Prepending an authorized record for the identifier increases the count
by one. -/
lemma authCount_cons_true (r : PayrollOutput) (hist : List PayrollOutput)
    (id : String) (h : isAuthDup id r = true) :
    authCount (r :: hist) id = authCount hist id + 1 := by
  unfold authCount
  rw [List.filter_cons, h]
  simp

/-- When the duplicate-access check is negative the history holds no
authorized record for that identifier. -/
lemma authCount_zero_of_any_false (hist : List PayrollOutput) (id : String)
    (h : hist.any (isAuthDup id) = false) : authCount hist id = 0 := by
  unfold authCount
  rw [List.length_eq_zero, List.filter_eq_nil_iff]
  intro a ha hpa
  have : hist.any (isAuthDup id) = true := List.any_eq_true.mpr ⟨a, ha, hpa⟩
  rw [h] at this
  exact Bool.false_ne_true this

/-- Every reachable application state, under model responses that echo the
submitted employee id, has at most one authorized record per identifier
string in its history. -/
lemma reachable_authCount_le_one (s : AppState) (hs : Reachable s)
    (id : String) : authCount s.history id ≤ 1 := by
  induction hs with
  | init => simp [authCount]
  | purge s hs ih => simp [authCount]
  | submit s input oracle hs hecho ih =>
    unfold handleSubmit
    split
    · exact ih
    · rename_i hnd
      split
      · exact ih
      · rename_i ds hds
        split
        · exact ih
        · cases oracle with
          | error msg => exact ih
          | ok result =>
            have hor : Except.ok (ε := String) result = Except.ok result := rfl
            cases hauth : result.authorized with
            | true =>
              simp only [hauth, if_true]
              refine le_trans (authCount_take_le _ 50 id) ?_
              cases hb : isAuthDup id result with
              | false => rw [authCount_cons_false _ _ _ hb]; exact ih
              | true =>
                rw [authCount_cons_true _ _ _ hb]
                have hid : result.employee_id = id := by
                  have := And.left (Bool.and_eq_true _ _ ▸ hb)
                  exact eq_of_beq this
                have hecho2 : result.employee_id = input.employee_id :=
                  hecho result rfl
                have hany : s.history.any (isAuthDup input.employee_id) = false :=
                  Bool.of_not_eq_true hnd
                have hany2 : s.history.any (isAuthDup id) = false := by
                  rw [← hid, hecho2]
                  exact hany
                have h0 : authCount s.history id = 0 :=
                  authCount_zero_of_any_false _ _ hany2
                omega
            | false =>
              simp only [hauth, Bool.false_eq_true, if_false]
              refine le_trans (authCount_take_le _ 50 id) ?_
              have hb : isAuthDup id result = false := by
                unfold isAuthDup
                rw [hauth]
                exact Bool.and_false _
              rw [authCount_cons_false _ _ _ hb]
              exact ih

/-- Characterization of the duplicate-access branch of handleSubmit. -/
lemma handleSubmit_dup (s : AppState) (input : PayrollInput)
    (oracle : Except String PayrollOutput)
    (hd : s.history.any (isAuthDup input.employee_id) = true) :
    handleSubmit s input oracle =
      ({ s with error := Option.some (duplicateMsg input.employee_id) },
       Outcome.duplicate) := by
  unfold handleSubmit
  rw [hd]
  simp

/-- Characterization of the invalid-id-format branch of handleSubmit. -/
lemma handleSubmit_invalid (s : AppState) (input : PayrollInput)
    (oracle : Except String PayrollOutput)
    (hnd : s.history.any (isAuthDup input.employee_id) = false)
    (hds : emDigits input.employee_id = Option.none) :
    handleSubmit s input oracle =
      ({ s with error := Option.some invalidIdMsg }, Outcome.invalidId) := by
  unfold handleSubmit
  rw [hnd, hds]
  simp

/-- Characterization of the out-of-range branch of handleSubmit. -/
lemma handleSubmit_range (s : AppState) (input : PayrollInput)
    (oracle : Except String PayrollOutput) (ds : List Char)
    (hnd : s.history.any (isAuthDup input.employee_id) = false)
    (hds : emDigits input.employee_id = Option.some ds)
    (hr : digitsVal ds < 1 ∨ 100 < digitsVal ds) :
    handleSubmit s input oracle =
      ({ s with error := Option.some (outOfRangeMsg input.employee_id) },
       Outcome.outOfRange) := by
  unfold handleSubmit
  rw [hnd, hds]
  simp only [Bool.false_eq_true, if_false]
  rw [if_pos hr]

/-- Characterization of handleSubmit when validation passes and the model
call returns a parsed response record. -/
lemma handleSubmit_ok (s : AppState) (input : PayrollInput)
    (r : PayrollOutput) (ds : List Char)
    (hnd : s.history.any (isAuthDup input.employee_id) = false)
    (hds : emDigits input.employee_id = Option.some ds)
    (hlo : 1 ≤ digitsVal ds) (hhi : digitsVal ds ≤ 100) :
    handleSubmit s input (Except.ok r) =
      if r.authorized then
        ({ history := (r :: s.history).take 50,
           currentResult := Option.some r,
           error := Option.none }, Outcome.accepted)
      else
        ({ history := (r :: s.history).take 50,
           currentResult := Option.some r,
           error := Option.some (supervisorAlertMsg input.employee_id) },
         Outcome.unauthorizedByModel) := by
  unfold handleSubmit
  rw [hnd, hds]
  simp only [Bool.false_eq_true, if_false]
  rw [if_neg (by omega : ¬(digitsVal ds < 1 ∨ 100 < digitsVal ds))]

/-- Characterization of handleSubmit when validation passes and the model
call throws: the thrown message is surfaced and nothing else changes. -/
lemma handleSubmit_err (s : AppState) (input : PayrollInput)
    (msg : String) (ds : List Char)
    (hnd : s.history.any (isAuthDup input.employee_id) = false)
    (hds : emDigits input.employee_id = Option.some ds)
    (hlo : 1 ≤ digitsVal ds) (hhi : digitsVal ds ≤ 100) :
    handleSubmit s input (Except.error msg) =
      ({ s with error := Option.some msg }, Outcome.serviceFailure) := by
  unfold handleSubmit
  rw [hnd, hds]
  simp only [Bool.false_eq_true, if_false]
  rw [if_neg (by omega : ¬(digitsVal ds < 1 ∨ 100 < digitsVal ds))]

/-- C1: for every history state and submitted employee id, if some record
in the history has the same employee_id string and authorized = true, then
handleSubmit rejects the submission with the duplicate-access error, makes
no external call, and leaves the history unchanged; and every reachable
history contains at most one authorized record per employee identifier
string. -/
theorem C1_duplicate_rejected_and_at_most_one_authorized
    (s : AppState) (input : PayrollInput)
    (oracle : Except String PayrollOutput) (hs : Reachable s) :
    (s.history.any (isAuthDup input.employee_id) = true →
      (handleSubmit s input oracle).2 = Outcome.duplicate ∧
      calledExternal (handleSubmit s input oracle).2 = false ∧
      (handleSubmit s input oracle).1.history = s.history ∧
      (handleSubmit s input oracle).1.error =
        Option.some (duplicateMsg input.employee_id)) ∧
    (∀ id : String, authCount s.history id ≤ 1) := by
  constructor
  · intro hd
    rw [handleSubmit_dup s input oracle hd]
    exact ⟨rfl, rfl, rfl, rfl⟩
  · intro id
    exact reachable_authCount_le_one s hs id

/-- Witness for C1 at a concrete reachable state that already holds an
authorized record for EM001: resubmitting EM001 is rejected as a duplicate
and the authorized count for EM001 stays at most one. -/
theorem C1_witness :
    (handleSubmit
        (handleSubmit initState inputEM001 (Except.ok sampleOutput)).1
        inputEM001 (Except.ok sampleOutput)).2 = Outcome.duplicate ∧
    authCount
      (handleSubmit initState inputEM001 (Except.ok sampleOutput)).1.history
      ("EM001") ≤ 1 := by
  have hreach :
      Reachable (handleSubmit initState inputEM001 (Except.ok sampleOutput)).1 :=
    Reachable.submit initState inputEM001 (Except.ok sampleOutput)
      Reachable.init (fun r hr => by cases hr; rfl)
  have h := C1_duplicate_rejected_and_at_most_one_authorized
    (handleSubmit initState inputEM001 (Except.ok sampleOutput)).1
    inputEM001 (Except.ok sampleOutput) hreach
  exact ⟨(h.1 (by decide)).1, h.2 ("EM001")⟩

/-- C2: when no duplicate-access rejection applies, handleSubmit fails with
the invalid-id-format error exactly when the id is not EM followed by one
or more digits, fails with the out-of-range error exactly when the id
matches but its numeric part is outside 1 to 100, each rejection carries
its error message, and in both cases no external model call is made and the
history is unchanged. -/
theorem C2_validation_error_classification
    (s : AppState) (input : PayrollInput)
    (oracle : Except String PayrollOutput)
    (hnd : s.history.any (isAuthDup input.employee_id) = false) :
    ((handleSubmit s input oracle).2 = Outcome.invalidId ↔
       emDigits input.employee_id = Option.none) ∧
    ((handleSubmit s input oracle).2 = Outcome.outOfRange ↔
       (∃ ds, emDigits input.employee_id = Option.some ds ∧
          (digitsVal ds < 1 ∨ 100 < digitsVal ds))) ∧
    ((handleSubmit s input oracle).2 = Outcome.invalidId →
       (handleSubmit s input oracle).1.error = Option.some invalidIdMsg) ∧
    ((handleSubmit s input oracle).2 = Outcome.outOfRange →
       (handleSubmit s input oracle).1.error =
         Option.some (outOfRangeMsg input.employee_id)) ∧
    ((handleSubmit s input oracle).2 = Outcome.invalidId ∨
       (handleSubmit s input oracle).2 = Outcome.outOfRange →
       calledExternal (handleSubmit s input oracle).2 = false ∧
       (handleSubmit s input oracle).1.history = s.history) := by
  cases hds : emDigits input.employee_id with
  | none =>
    rw [handleSubmit_invalid s input oracle hnd hds]
    simp [calledExternal]
  | some ds =>
    by_cases hr : digitsVal ds < 1 ∨ 100 < digitsVal ds
    · rw [handleSubmit_range s input oracle ds hnd hds hr]
      simp [calledExternal]
      omega
    · have hlo : 1 ≤ digitsVal ds := by omega
      have hhi : digitsVal ds ≤ 100 := by omega
      cases oracle with
      | ok r =>
        rw [handleSubmit_ok s input r ds hnd hds hlo hhi]
        by_cases hauth : r.authorized = true
        · simp [hauth]
          omega
        · simp [hauth]
          omega
      | error msg =>
        rw [handleSubmit_err s input msg ds hnd hds hlo hhi]
        simp
        omega

/-- Witness for C2 on the empty state: EM999 matches the format, its
numeric part 999 is out of range, and it is rejected with the out-of-range
error without any external call. -/
theorem C2_witness :
    (handleSubmit initState
        ⟨"EM999", Sector.Mining, "09:00", "17:30", Option.none⟩
        (Except.ok sampleOutput)).2 = Outcome.outOfRange ∧
    calledExternal (handleSubmit initState
        ⟨"EM999", Sector.Mining, "09:00", "17:30", Option.none⟩
        (Except.ok sampleOutput)).2 = false ∧
    (handleSubmit initState
        ⟨"EM999", Sector.Mining, "09:00", "17:30", Option.none⟩
        (Except.ok sampleOutput)).1.error =
      Option.some (outOfRangeMsg ("EM999")) := by
  have h := C2_validation_error_classification initState
    ⟨"EM999", Sector.Mining, "09:00", "17:30", Option.none⟩
    (Except.ok sampleOutput) (by decide)
  have hout : (handleSubmit initState
      ⟨"EM999", Sector.Mining, "09:00", "17:30", Option.none⟩
      (Except.ok sampleOutput)).2 = Outcome.outOfRange :=
    h.2.1.mpr ⟨['9', '9', '9'], by decide, by decide⟩
  exact ⟨hout, (h.2.2.2.2 (Or.inr hout)).1, h.2.2.2.1 hout⟩

/-- C3: the hourly rate is the sector base rate (Mining 50, Hardware 45,
Software 60) when group = floor((N - 1) / 5) is even and base rate + 5 when
it is odd, base salary is hours worked times hourly rate, and EM023 in
Mining with check-in 09:00 and current time 17:30 gives hours worked 8.5,
group 4 (even), hourly rate 50 and base salary 425. -/
theorem C3_tiered_rate_and_base_salary :
    baseRate Sector.Mining = 50 ∧ baseRate Sector.Hardware = 45 ∧
    baseRate Sector.Software = 60 ∧
    (∀ (sec : Sector) (n : Nat), rateGroup n % 2 = 0 →
       hourlyRate sec n = baseRate sec) ∧
    (∀ (sec : Sector) (n : Nat), rateGroup n % 2 = 1 →
       hourlyRate sec n = baseRate sec + 5) ∧
    emDigits ("EM023") = Option.some ['0', '2', '3'] ∧
    digitsVal ['0', '2', '3'] = 23 ∧
    rateGroup 23 = 4 ∧ rateGroup 23 % 2 = 0 ∧
    hourlyRate Sector.Mining 23 = 50 ∧
    hoursWorked ("09:00") ("17:30") = Option.some (17 / 2) ∧
    baseSalary (17 / 2) (hourlyRate Sector.Mining 23) = 425 := by
  refine ⟨rfl, rfl, rfl, ?_, ?_, ?_, ?_, ?_, ?_, ?_, ?_, ?_⟩
  · intro sec n h
    unfold hourlyRate
    rw [if_pos h]
  · intro sec n h
    unfold hourlyRate
    rw [if_neg (by omega : ¬rateGroup n % 2 = 0)]
  · decide
  · decide
  · decide
  · decide
  · norm_num [hourlyRate, rateGroup, baseRate]
  · have h1 : parseTimeMinutes ("09:00") = Option.some 540 := by decide
    have h2 : parseTimeMinutes ("17:30") = Option.some 1050 := by decide
    rw [hoursWorked, h1, h2]
    norm_num
  · norm_num [baseSalary, hourlyRate, rateGroup, baseRate]

/-- Witness for C3 applying the parity clauses at concrete groups: group 4
(from EM023) is even so the Mining rate stays 50, and group 1 (from EM006)
is odd so the Mining rate becomes 55. -/
theorem C3_witness :
    hourlyRate Sector.Mining 23 = baseRate Sector.Mining ∧
    hourlyRate Sector.Mining 6 = baseRate Sector.Mining + 5 :=
  ⟨C3_tiered_rate_and_base_salary.2.2.2.1 Sector.Mining 23 (by decide),
   C3_tiered_rate_and_base_salary.2.2.2.2.1 Sector.Mining 6 (by decide)⟩

/-- C4: final salary is base salary times 1.10 when efficiency is at least
90, unchanged when between 50 and 89, and times 0.90 below 50; work status
is full_day when hours worked is at least 6, half_day otherwise, and denied
when eligibility or authorization failed; base salary 425 with efficiency
92 gives final salary 467.50 and full_day. -/
theorem C4_salary_adjustment_and_work_status :
    (∀ base eff : ℚ, 90 ≤ eff → finalSalary base eff = base * (11 / 10)) ∧
    (∀ base eff : ℚ, 50 ≤ eff → eff < 90 → finalSalary base eff = base) ∧
    (∀ base eff : ℚ, eff < 50 → finalSalary base eff = base * (9 / 10)) ∧
    (∀ hours : ℚ, 6 ≤ hours → workStatusOf hours false = WorkStatus.full_day) ∧
    (∀ hours : ℚ, hours < 6 → workStatusOf hours false = WorkStatus.half_day) ∧
    (∀ hours : ℚ, workStatusOf hours true = WorkStatus.denied) ∧
    finalSalary 425 92 = 935 / 2 ∧ (935 : ℚ) / 2 = 425 * (11 / 10) ∧
    workStatusOf (17 / 2) false = WorkStatus.full_day := by
  refine ⟨?_, ?_, ?_, ?_, ?_, ?_, ?_, ?_, ?_⟩
  · intro base eff h
    unfold finalSalary
    rw [if_pos h]
  · intro base eff h50 h90
    unfold finalSalary
    rw [if_neg (not_le.mpr h90), if_pos h50]
  · intro base eff h
    unfold finalSalary
    rw [if_neg (by linarith : ¬(90 : ℚ) ≤ eff), if_neg (not_le.mpr h)]
  · intro hours h
    unfold workStatusOf
    rw [if_neg Bool.false_ne_true, if_pos h]
  · intro hours h
    unfold workStatusOf
    rw [if_neg Bool.false_ne_true, if_neg (not_le.mpr h)]
  · intro hours
    unfold workStatusOf
    rw [if_pos rfl]
  · norm_num [finalSalary]
  · norm_num
  · norm_num [workStatusOf]

/-- Witness for C4 applying each tier at concrete inputs: efficiency 92
earns the bonus on base 425, efficiency 70 leaves base 100 unchanged,
efficiency 40 applies the penalty to base 100, 8.5 hours is a full day and
5 hours is a half day. -/
theorem C4_witness :
    finalSalary 425 92 = 425 * (11 / 10) ∧
    finalSalary 100 70 = 100 ∧
    finalSalary 100 40 = 100 * (9 / 10) ∧
    workStatusOf (17 / 2) false = WorkStatus.full_day ∧
    workStatusOf 5 false = WorkStatus.half_day :=
  ⟨C4_salary_adjustment_and_work_status.1 425 92 (by norm_num),
   C4_salary_adjustment_and_work_status.2.1 100 70 (by norm_num) (by norm_num),
   C4_salary_adjustment_and_work_status.2.2.1 100 40 (by norm_num),
   C4_salary_adjustment_and_work_status.2.2.2.1 (17 / 2) (by norm_num),
   C4_salary_adjustment_and_work_status.2.2.2.2.1 5 (by norm_num)⟩

/-- C5: for every activity level, sector, PPE flags and posture judgement,
the efficiency percentage equals the activity base score (high 95, medium
70, low 30, absent 0) minus 30 when required PPE is missing and minus 20
when posture is unsafe, clamped to 0 to 100, and it always lies within
0 to 100. -/
theorem C5_efficiency_penalties_and_clamp :
    (∀ (a : ActivityLevel) (sec : Sector) (helmet vest unsafePosture : Bool),
       efficiencyPct a sec helmet vest unsafePosture =
         clamp01 (baseEfficiency a
           - (if requiredPPEMissing sec helmet vest then 30 else 0)
           - (if unsafePosture then 20 else 0))) ∧
    (∀ (a : ActivityLevel) (sec : Sector) (helmet vest unsafePosture : Bool),
       0 ≤ efficiencyPct a sec helmet vest unsafePosture ∧
       efficiencyPct a sec helmet vest unsafePosture ≤ 100) ∧
    baseEfficiency ActivityLevel.high = 95 ∧
    baseEfficiency ActivityLevel.medium = 70 ∧
    baseEfficiency ActivityLevel.low = 30 ∧
    baseEfficiency ActivityLevel.not_present = 0 := by
  refine ⟨fun a sec helmet vest u => rfl, ?_, rfl, rfl, rfl, rfl⟩
  decide

/-- C6: the risk level mapping of the verification contract: absent gives
none, safe and working gives low, idle (safe) gives medium, a single
missing-PPE violation gives high, multiple simultaneous violations give
critical; required PPE is a helmet for Mining, helmet and vest for
Hardware, and nothing for Software. -/
theorem C6_risk_level_mapping :
    (∀ (m u : Bool), riskLevelOf WorkingStatus.absent m u = RiskLevel.none) ∧
    riskLevelOf WorkingStatus.working false false = RiskLevel.low ∧
    riskLevelOf WorkingStatus.idle false false = RiskLevel.medium ∧
    (∀ w : WorkingStatus, w ≠ WorkingStatus.absent →
       riskLevelOf w true false = RiskLevel.high) ∧
    (∀ w : WorkingStatus, w ≠ WorkingStatus.absent →
       riskLevelOf w true true = RiskLevel.critical) ∧
    (∀ helmet vest : Bool,
       requiredPPEMissing Sector.Mining helmet vest = !helmet) ∧
    (∀ helmet vest : Bool,
       requiredPPEMissing Sector.Hardware helmet vest = (!helmet || !vest)) ∧
    (∀ helmet vest : Bool,
       requiredPPEMissing Sector.Software helmet vest = false) := by
  decide

/-- Witness for C6 applying the guarded clauses at the working status: a
working worker missing required PPE alone is high risk, and with an unsafe
posture as well is critical. -/
theorem C6_witness :
    riskLevelOf WorkingStatus.working true false = RiskLevel.high ∧
    riskLevelOf WorkingStatus.working true true = RiskLevel.critical :=
  ⟨C6_risk_level_mapping.2.2.2.1 WorkingStatus.working (by decide),
   C6_risk_level_mapping.2.2.2.2.1 WorkingStatus.working (by decide)⟩

/-- C7: on every completed submission the new history is the new record at
the most-recent position followed by the previous records, truncated to at
most 50 entries; the length never exceeds 50 and at the cap the oldest
(last) record is the one evicted. -/
theorem C7_history_cap_and_eviction
    (s : AppState) (input : PayrollInput) (r : PayrollOutput) (ds : List Char)
    (hnd : s.history.any (isAuthDup input.employee_id) = false)
    (hds : emDigits input.employee_id = Option.some ds)
    (hlo : 1 ≤ digitsVal ds) (hhi : digitsVal ds ≤ 100) :
    (handleSubmit s input (Except.ok r)).1.history = (r :: s.history).take 50 ∧
    (handleSubmit s input (Except.ok r)).1.history.length ≤ 50 ∧
    (s.history.length = 50 →
       (handleSubmit s input (Except.ok r)).1.history = r :: s.history.dropLast) := by
  have hh : (handleSubmit s input (Except.ok r)).1.history =
      (r :: s.history).take 50 := by
    rw [handleSubmit_ok s input r ds hnd hds hlo hhi]
    by_cases hauth : r.authorized = true
    · rw [if_pos hauth]
    · rw [if_neg hauth]
  refine ⟨hh, ?_, ?_⟩
  · rw [hh, List.length_take]
    omega
  · intro h50
    rw [hh, show (50 : Nat) = 49 + 1 from rfl, List.take_succ_cons]
    congr 1
    rw [List.dropLast_eq_take, h50]

/-- Witness for C7 on the empty state with the EM001 submission: the new
history is the new record prepended and truncated to 50. -/
theorem C7_witness :
    (handleSubmit initState inputEM001 (Except.ok sampleOutput)).1.history =
      (sampleOutput :: initState.history).take 50 ∧
    (handleSubmit initState inputEM001 (Except.ok sampleOutput)).1.history.length ≤ 50 := by
  have h := C7_history_cap_and_eviction initState inputEM001 sampleOutput
    ['0', '0', '1'] (by decide) (by decide) (by decide) (by decide)
  exact ⟨h.1, h.2.1⟩

/-- C8: when the external model call fails, handleSubmit surfaces the
thrown message as the single user-visible error, performs no retry, and
leaves both the history and the current result unchanged; a later
resubmission of the same input with a successful model response then
completes normally. -/
theorem C8_external_failure_is_atomic
    (s : AppState) (input : PayrollInput) (msg : String) (ds : List Char)
    (hnd : s.history.any (isAuthDup input.employee_id) = false)
    (hds : emDigits input.employee_id = Option.some ds)
    (hlo : 1 ≤ digitsVal ds) (hhi : digitsVal ds ≤ 100) :
    (handleSubmit s input (Except.error msg)).1.history = s.history ∧
    (handleSubmit s input (Except.error msg)).1.currentResult = s.currentResult ∧
    (handleSubmit s input (Except.error msg)).1.error = Option.some msg ∧
    (handleSubmit s input (Except.error msg)).2 = Outcome.serviceFailure ∧
    (∀ r : PayrollOutput,
       (handleSubmit (handleSubmit s input (Except.error msg)).1 input
           (Except.ok r)).2 =
         (if r.authorized then Outcome.accepted
          else Outcome.unauthorizedByModel)) := by
  have he := handleSubmit_err s input msg ds hnd hds hlo hhi
  refine ⟨by rw [he], by rw [he], by rw [he], by rw [he], ?_⟩
  intro r
  have hnd2 : (handleSubmit s input
      (Except.error msg)).1.history.any (isAuthDup input.employee_id) = false := by
    rw [he]
    exact hnd
  rw [handleSubmit_ok _ input r ds hnd2 hds hlo hhi]
  by_cases hauth : r.authorized = true
  · rw [if_pos hauth, if_pos hauth]
  · rw [if_neg hauth, if_neg hauth]

/-- Witness for C8 on the empty state with a concrete thrown message: the
history and current result are untouched, the message is surfaced, and a
resubmission with a successful response is accepted. -/
theorem C8_witness :
    (handleSubmit initState inputEM001
        (Except.error ("Supervisor System Error: network"))).1.history =
      initState.history ∧
    (handleSubmit initState inputEM001
        (Except.error ("Supervisor System Error: network"))).1.error =
      Option.some ("Supervisor System Error: network") ∧
    (handleSubmit
        (handleSubmit initState inputEM001
          (Except.error ("Supervisor System Error: network"))).1
        inputEM001 (Except.ok sampleOutput)).2 =
      (if sampleOutput.authorized then Outcome.accepted
       else Outcome.unauthorizedByModel) := by
  have h := C8_external_failure_is_atomic initState inputEM001
    ("Supervisor System Error: network") ['0', '0', '1']
    (by decide) (by decide) (by decide) (by decide)
  exact ⟨h.1, h.2.2.1, h.2.2.2.2 sampleOutput⟩

/-- C9: when the model responds with authorized = false, handleSubmit both
surfaces the rejection as an error message and appends the unauthorized
record to the history (subject to the 50-record cap) and sets it as the
current displayed result, exactly as it does for an authorized record. -/
theorem C9_unauthorized_response_recorded
    (s : AppState) (input : PayrollInput) (r : PayrollOutput) (ds : List Char)
    (hnd : s.history.any (isAuthDup input.employee_id) = false)
    (hds : emDigits input.employee_id = Option.some ds)
    (hlo : 1 ≤ digitsVal ds) (hhi : digitsVal ds ≤ 100)
    (hauth : r.authorized = false) :
    (handleSubmit s input (Except.ok r)).2 = Outcome.unauthorizedByModel ∧
    (handleSubmit s input (Except.ok r)).1.error =
      Option.some (supervisorAlertMsg input.employee_id) ∧
    (handleSubmit s input (Except.ok r)).1.history = (r :: s.history).take 50 ∧
    (handleSubmit s input (Except.ok r)).1.currentResult = Option.some r ∧
    (∀ r2 : PayrollOutput,
       (handleSubmit s input (Except.ok r2)).1.history =
         (r2 :: s.history).take 50 ∧
       (handleSubmit s input (Except.ok r2)).1.currentResult =
         Option.some r2) := by
  have hne : ¬r.authorized = true := by
    rw [hauth]
    exact Bool.false_ne_true
  have ho := handleSubmit_ok s input r ds hnd hds hlo hhi
  rw [if_neg hne] at ho
  refine ⟨by rw [ho], by rw [ho], by rw [ho], by rw [ho], ?_⟩
  intro r2
  have ho2 := handleSubmit_ok s input r2 ds hnd hds hlo hhi
  by_cases h2 : r2.authorized = true
  · rw [if_pos h2] at ho2
    exact ⟨by rw [ho2], by rw [ho2]⟩
  · rw [if_neg h2] at ho2
    exact ⟨by rw [ho2], by rw [ho2]⟩

/-- A model response denying authorization, used as a concrete witness
input. -/
def sampleDenied : PayrollOutput :=
  { sampleOutput with
      authorized := false
      work_status := WorkStatus.denied
      final_salary := 0
      efficiency_percentage := 0 }

/-- Witness for C9 on the empty state with a concrete denied response: the
outcome is the supervisor alert, yet the record is still prepended to the
history and displayed as the current result. -/
theorem C9_witness :
    (handleSubmit initState inputEM001 (Except.ok sampleDenied)).2 =
      Outcome.unauthorizedByModel ∧
    (handleSubmit initState inputEM001 (Except.ok sampleDenied)).1.history =
      (sampleDenied :: initState.history).take 50 ∧
    (handleSubmit initState inputEM001 (Except.ok sampleDenied)).1.currentResult =
      Option.some sampleDenied := by
  have h := C9_unauthorized_response_recorded initState inputEM001 sampleDenied
    ['0', '0', '1'] (by decide) (by decide) (by decide) (by decide) (by decide)
  exact ⟨h.1, h.2.2.1, h.2.2.2.1⟩

/-- An authorized record carrying the id string EM1, used to exhibit the
string-equality duplicate check. -/
def recEM1 : PayrollOutput := { sampleOutput with employee_id := "EM1" }

/-- A state whose history holds the authorized EM1 record. -/
def stateEM1 : AppState := ⟨[recEM1], Option.none, Option.none⟩

/-- C10: EM1 and EM001 are distinct id strings with the same numeric part;
both pass the format and range validation and derive the same group and
hourly rate, yet after EM1 is recorded as authorized, submitting EM001 is
not rejected as a duplicate, because the duplicate check compares
employee_id by exact string equality. -/
theorem C10_duplicate_check_is_string_equality :
    ("EM1" : String) ≠ "EM001" ∧
    emDigits ("EM1") = Option.some ['1'] ∧
    emDigits ("EM001") = Option.some ['0', '0', '1'] ∧
    digitsVal ['1'] = digitsVal ['0', '0', '1'] ∧
    rateGroup (digitsVal ['1']) = rateGroup (digitsVal ['0', '0', '1']) ∧
    (∀ sec : Sector,
       hourlyRate sec (digitsVal ['1']) =
         hourlyRate sec (digitsVal ['0', '0', '1'])) ∧
    stateEM1.history.any (isAuthDup ("EM1")) = true ∧
    stateEM1.history.any (isAuthDup ("EM001")) = false ∧
    (handleSubmit stateEM1 inputEM001 (Except.ok sampleOutput)).2 =
      Outcome.accepted ∧
    authCount (handleSubmit stateEM1 inputEM001
      (Except.ok sampleOutput)).1.history ("EM1") = 1 ∧
    authCount (handleSubmit stateEM1 inputEM001
      (Except.ok sampleOutput)).1.history ("EM001") = 1 := by
  refine ⟨by decide, by decide, by decide, by decide, by decide, ?_,
    by decide, by decide, by decide, by decide, by decide⟩
  intro sec
  rw [show digitsVal ['1'] = digitsVal ['0', '0', '1'] from by decide]

end Phoenix
